import Mathlib

/-!
Verification of the tiered media storage and reconciliation layer
(src/media_filesystem.py, src/datatypes.py) against its specification.

The Python code is shallowly embedded: pure path/key arithmetic becomes
Lean functions on strings; file-system and S3 state becomes explicit
state records (sizes at paths / keys); code that raises becomes
Except / explicit error fields.
-/

namespace MediaFs

/-- Tri-state storage classification (media_filesystem.py lines 15-19). -/
inductive StorageClass where
  | OFFLINE
  | LOCAL
  | REMOTE
deriving DecidableEq, Repr

/-- Shard component of a path: decimal rendering of ord(c) - 32
(media_filesystem.py lines 60-61, 143-144). -/
def shardChar (c : Char) : String :=
  toString (c.toNat - 32)

/-- First character of a video id value, as used by the shard functions
(vid.value[0] on an 11-character id). -/
def vidChar (vid : String) (i : Nat) : Char :=
  vid.toList.getD i ' '

/-- LocalFilesystem._foldername / AWSFilesystem._foldername (lines 60-61, 143-144). -/
def foldername (path vid : String) : String :=
  path ++ "/" ++ shardChar (vidChar vid 0) ++ "/" ++ shardChar (vidChar vid 1)

/-- LocalFilesystem._filename / AWSFilesystem._filename (lines 62-63, 145-146). -/
def filename (path vid : String) : String :=
  foldername path vid ++ "/" ++ vid ++ ".mkv"

/-- LocalFilesystem._thumbnail_foldername / AWSFilesystem._thumbnail_foldername
(lines 64-65, 147-148). -/
def thumbnailFoldername (path vid : String) : String :=
  path ++ "/thumbs/" ++ shardChar (vidChar vid 0) ++ "/" ++ shardChar (vidChar vid 1)

/-- LocalFilesystem._thumbnail_filename / AWSFilesystem._thumbnail_filename
(lines 66-67, 149-150). -/
def thumbnailFilename (path vid : String) : String :=
  thumbnailFoldername path vid ++ "/" ++ vid ++ ".jpg"

/-- AWSFilesystem._aws_filename (lines 151-152): remote key of a video. -/
def awsFilename (pfx vid : String) : String :=
  pfx ++ vid ++ ".mkv"

/-- AWSFilesystem._aws_thumbnail_filename (lines 153-154): remote key of a thumbnail. -/
def awsThumbnailFilename (pfx vid : String) : String :=
  pfx ++ vid ++ ".jpg"

/-- Validity check of VideoID.__init__ (datatypes.py lines 24-29):
the value matches ^[a-zA-Z0-9_-]{11}$. -/
def validVideoID (v : String) : Bool :=
  v.length == 11 && v.toList.all (fun c => c.isAlphanum || c == '_' || c == '-')

/-- Python slice l[-a:-b] on a list (for a, b positive): negative indices
are offsets from the end, clamped at 0 exactly as Nat subtraction clamps. -/
def pySliceNeg (l : List Char) (a b : Nat) : List Char :=
  (l.drop (l.length - a)).take ((l.length - b) - (l.length - a))

/-- Key-to-id parse used by AWSFilesystem._aws_content_list (lines 211-218):
VideoID(x.Key[-15:-4]). -/
def parseAwsKey (key : String) : String :=
  String.mk (pySliceNeg key.toList 15 4)

/-- Read block size of LocalFilesystem.write_video: src.read(2**23), 8 MiB (line 80). -/
def blockSize : Nat := 2 ^ 23

/-- The read loop of LocalFilesystem.write_video (lines 78-89): repeatedly read
up to blockSize bytes until the source is exhausted. Embedded structurally with
explicit fuel; every iteration on a nonempty rest consumes at least one byte,
so fuel = initial length always suffices (readBlocks below supplies it). -/
def readBlocksFuel : Nat → List Nat → List (List Nat)
  | 0, _ => []
  | _ + 1, [] => []
  | fuel + 1, x :: xs => (x :: xs).take blockSize :: readBlocksFuel fuel ((x :: xs).drop blockSize)

/-- The successive blocks returned by the read loop on source bytes l. -/
def readBlocks (l : List Nat) : List (List Nat) := readBlocksFuel l.length l

/-- Local file-system state: bytes stored at each path, none when absent. -/
def Fs : Type := String → Option (List Nat)

/-- Point update of a file-system state (a completed write of v at p). -/
def fsSet (fs : Fs) (p : String) (v : Option (List Nat)) : Fs :=
  fun q => if q = p then v else fs q

/-- Model of os.rename(src, dst): dst now holds the bytes that were at src
(overwriting anything there) and src is gone. -/
def fsRename (fs : Fs) (src dst : String) : Fs :=
  fsSet (fsSet fs dst (fs src)) src none

/-- Outcome of LocalFilesystem.write_video: ok = false models the raised
ValueError, fs the file-system state after the call. -/
structure LocalWrite where
  ok : Bool
  fs : Fs

/-- LocalFilesystem.write_video (lines 72-93). statSize is the size os.stat
reported before the copy; src the bytes actually delivered by the read loop
(the two differ only when the source changes between stat and the reads).
The streamed blocks land at dest ++ ".tmp"; then the temp file's size is
compared against statSize: on mismatch a ValueError is raised (ok = false)
with the temp file left in place and no rename; on match the temp file is
renamed onto the final sharded path. -/
def localWriteVideo (path vid : String) (statSize : Nat) (src : List Nat) (fs : Fs) :
    LocalWrite :=
  let dest := filename path vid
  let copied := (readBlocks src).flatten
  let fs1 := fsSet fs (dest ++ ".tmp") (some copied)
  if copied.length ≠ statSize then { ok := false, fs := fs1 }
  else { ok := true, fs := fsRename fs1 (dest ++ ".tmp") dest }

/-- File-system and S3 calls made by the write paths, in program order. -/
inductive FsOp where
  | statFile (p : String)
  | s3Upload (src key : String)
  | makeDirs (d : String)
  | copyFile (src dst : String)
  | openWrite (p : String)
  | rename (src dst : String)
  | s3Download (key dst : String)
deriving DecidableEq, Repr

/-- Call trace of AWSFilesystem.write_video (lines 259-270): stat the source,
upload_file to the bucket, makedirs, then shutil.copy of the source directly
onto the final sharded local path. -/
def awsWriteVideoTrace (path pfx vid src : String) : List FsOp :=
  [ FsOp.statFile src,
    FsOp.s3Upload src (awsFilename pfx vid),
    FsOp.makeDirs (foldername path vid),
    FsOp.copyFile src (filename path vid) ]

/-- Call trace of LocalFilesystem.write_video (lines 72-93): makedirs, stream
into dest ++ ".tmp" (an openWrite at the temp path), stat the temp file, then
os.rename temp onto dest. -/
def localWriteVideoTrace (path vid src : String) : List FsOp :=
  [ FsOp.statFile src,
    FsOp.makeDirs (foldername path vid),
    FsOp.openWrite (filename path vid ++ ".tmp"),
    FsOp.statFile (filename path vid ++ ".tmp"),
    FsOp.rename (filename path vid ++ ".tmp") (filename path vid) ]

/-- Does an operation make bytes appear at path p? -/
def writesTo (op : FsOp) (p : String) : Bool :=
  match op with
  | FsOp.copyFile _ dst => dst == p
  | FsOp.openWrite q => q == p
  | FsOp.rename _ dst => dst == p
  | FsOp.s3Download _ dst => dst == p
  | _ => false

/-- The claimed atomic-commit discipline: bytes become visible at the final
path only through renaming the corresponding temp file onto it. -/
def atomicCommitOnly (tr : List FsOp) (final : String) : Bool :=
  tr.all fun op =>
    !(writesTo op final) ||
      (match op with
       | FsOp.rename src _ => src == final ++ ".tmp"
       | _ => false)

/-- Response of an S3 head_object call: success with a ContentLength, or a
botocore ClientError carrying an error code string. -/
inductive HeadResponse where
  | found (size : Nat)
  | clientError (code : String)
deriving DecidableEq, Repr

/-- AWSFilesystem._aws_video_exists (lines 157-167): head_object success means
the object exists; a ClientError with code '404' means it does not; any other
ClientError code is re-raised as ValueError. -/
def awsVideoExists (r : HeadResponse) : Except Unit Bool :=
  match r with
  | HeadResponse.found _ => Except.ok true
  | HeadResponse.clientError code =>
      if code = "404" then Except.ok false else Except.error ()

/-- AWSFilesystem._aws_thumbnail_exists (lines 170-180): identical handling
for the thumbnail key. -/
def awsThumbnailExists (r : HeadResponse) : Except Unit Bool :=
  match r with
  | HeadResponse.found _ => Except.ok true
  | HeadResponse.clientError code =>
      if code = "404" then Except.ok false else Except.error ()

/-- State of the caching remote backend, per video id: localVideo vid is the
size of the cache file at filename(path, vid) (none when os.path.isfile is
false), localThumb likewise for the thumbnail; remoteVideo / remoteThumb the
size of the S3 object under the video / thumbnail key. -/
structure AwsState where
  localVideo : String → Option Nat
  localThumb : String → Option Nat
  remoteVideo : String → Option Nat
  remoteThumb : String → Option Nat

/-- Update of the local video cache entry for one id. -/
def setLocalVideo (st : AwsState) (vid : String) (v : Option Nat) : AwsState :=
  { st with localVideo := fun w => if w = vid then v else st.localVideo w }

/-- Update of the remote video object for one id (an S3 upload). -/
def setRemoteVideo (st : AwsState) (vid : String) (v : Option Nat) : AwsState :=
  { st with remoteVideo := fun w => if w = vid then v else st.remoteVideo w }

/-- Update of the remote thumbnail object for one id (an S3 upload). -/
def setRemoteThumb (st : AwsState) (vid : String) (v : Option Nat) : AwsState :=
  { st with remoteThumb := fun w => if w = vid then v else st.remoteThumb w }

/-- AWSFilesystem.video_status (lines 297-302): LOCAL when the sharded cache
file exists, else the result of the remote existence probe on the head
response decides REMOTE / OFFLINE, propagating probe errors. -/
def awsVideoStatus (st : AwsState) (vid : String) (head : HeadResponse) :
    Except Unit StorageClass :=
  if (st.localVideo vid).isSome then Except.ok StorageClass.LOCAL
  else
    match awsVideoExists head with
    | Except.ok true => Except.ok StorageClass.REMOTE
    | Except.ok false => Except.ok StorageClass.OFFLINE
    | Except.error e => Except.error e

/-- Result of AWSFilesystem.get_video_url: a local path, or a presigned URL
for a bucket and key with its ExpiresIn seconds. -/
inductive UrlResult where
  | localPath (p : String)
  | presignedUrl (bucket key : String) (expiresIn : Nat)
deriving DecidableEq, Repr

/-- media_filesystem.py line 13: AWS_URL_KEEPALIVE = 60*60*24. -/
def AWS_URL_KEEPALIVE : Nat := 60 * 60 * 24

/-- AWSFilesystem.get_video_url (lines 271-296). Cache hit: return the local
path, no state change. force_download on a miss: head_object (any ClientError,
404 included, is re-raised as ValueError), download to filename ++ ".dl_tmp_1",
rename onto the cache path, return the local path. Otherwise: presigned GET
URL for the video key with AWS_URL_KEEPALIVE expiry, no state change. -/
def awsGetVideoUrl (path bucket pfx : String) (st : AwsState) (vid : String)
    (force : Bool) : Except Unit (UrlResult × AwsState) :=
  if (st.localVideo vid).isSome then
    Except.ok (UrlResult.localPath (filename path vid), st)
  else if force then
    match st.remoteVideo vid with
    | none => Except.error ()
    | some sz =>
        Except.ok (UrlResult.localPath (filename path vid), setLocalVideo st vid (some sz))
  else
    Except.ok (UrlResult.presignedUrl bucket (awsFilename pfx vid) AWS_URL_KEEPALIVE, st)

/-- The pre-fetched remote listing built by _aws_content_list (lines 201-228):
per id, the pair (video object size?, thumbnail object size?); none when the
id does not occur in the listing at all (Python: vid not in aws_videos). -/
def AwsMap : Type := String → Option (Option Nat × Option Nat)

/-- Diagnostics printed by AWSFilesystem.integrity_check. missingThumbnail
is printed with the same "ERROR: Missing video" text in the source (line 359). -/
inductive Diag where
  | uploadingVideo (vid : String)
  | missingVideo (vid : String)
  | uploadingThumbnail (vid : String)
  | missingThumbnail (vid : String)
  | cachingVideo (vid : String)
  | evictingVideo (vid : String)
deriving DecidableEq, Repr

/-- Uncaught exceptions that abort integrity_check: the KeyError from
aws_videos[vid] at line 364, or a boto ClientError from downloading a key
that is not in the bucket. -/
inductive AbortError where
  | keyError
  | clientError
deriving DecidableEq, Repr

/-- Video leg of AWSFilesystem.integrity_check (lines 335-349): when the video
is locally cached, re-upload it unless the listing records exactly its size;
when it is not cached and the listing records no video object, print the
missing-video diagnostic. -/
def videoLeg (aws : AwsMap) (vid : String) (st : AwsState) : AwsState × List Diag :=
  match st.localVideo vid with
  | some lsz =>
      match aws vid with
      | none => (setRemoteVideo st vid (some lsz), [Diag.uploadingVideo vid])
      | some sizes =>
          if sizes.1 ≠ some lsz then (setRemoteVideo st vid (some lsz), [Diag.uploadingVideo vid])
          else (st, [])
  | none =>
      match aws vid with
      | none => (st, [Diag.missingVideo vid])
      | some sizes =>
          if sizes.1 = none then (st, [Diag.missingVideo vid]) else (st, [])

/-- Thumbnail leg of AWSFilesystem.integrity_check (lines 350-359): the same
logic on the thumbnail entry of the listing. -/
def thumbLeg (aws : AwsMap) (vid : String) (st : AwsState) : AwsState × List Diag :=
  match st.localThumb vid with
  | some lsz =>
      match aws vid with
      | none => (setRemoteThumb st vid (some lsz), [Diag.uploadingThumbnail vid])
      | some sizes =>
          if sizes.2 ≠ some lsz then (setRemoteThumb st vid (some lsz), [Diag.uploadingThumbnail vid])
          else (st, [])
  | none =>
      match aws vid with
      | none => (st, [Diag.missingThumbnail vid])
      | some sizes =>
          if sizes.2 = none then (st, [Diag.missingThumbnail vid]) else (st, [])

/-- Pin leg of AWSFilesystem.integrity_check (lines 360-381). A pinned id that
is not cached prints "Caching video" and then evaluates aws_videos[vid][0],
which raises KeyError when the id is absent from the listing; otherwise the
video object is downloaded to a temp path and renamed into the cache (the
download raises a ClientError when the bucket has no such object). An unpinned
id that is cached has its local video file removed. -/
def pinLeg (aws : AwsMap) (cached : String → Bool) (vid : String) (st : AwsState) :
    AwsState × List Diag × Option AbortError :=
  if cached vid then
    if (st.localVideo vid).isSome then (st, [], none)
    else
      match aws vid with
      | none => (st, [Diag.cachingVideo vid], some AbortError.keyError)
      | some _ =>
          match st.remoteVideo vid with
          | some sz => (setLocalVideo st vid (some sz), [Diag.cachingVideo vid], none)
          | none => (st, [Diag.cachingVideo vid], some AbortError.clientError)
  else
    if (st.localVideo vid).isSome then
      (setLocalVideo st vid none, [Diag.evictingVideo vid], none)
    else (st, [], none)

/-- One iteration of the integrity_check loop body (lines 334-381), for one
database id: video leg, thumbnail leg, then pin enforcement. -/
def integrityStep (aws : AwsMap) (cached : String → Bool) (vid : String) (st : AwsState) :
    AwsState × List Diag × Option AbortError :=
  let v := videoLeg aws vid st
  let t := thumbLeg aws vid v.1
  let p := pinLeg aws cached vid t.1
  (p.1, v.2 ++ t.2 ++ p.2.1, p.2.2)

/-- Outcome of a reconciliation run: final backend state, the diagnostics
printed in order, and the uncaught exception that ended the run early, if any. -/
structure IntegrityRun where
  state : AwsState
  diags : List Diag
  err : Option AbortError

/-- AWSFilesystem.integrity_check (lines 329-381): aws is the listing
pre-fetched once by _aws_content_list, cached the force-cached set, dbVideos
the database enumeration; the loop stops at the first uncaught exception.
The three summary count prints (lines 331-333) carry no per-id information
and are not modelled. -/
def integrityCheck (aws : AwsMap) (cached : String → Bool) (dbVideos : List String)
    (st : AwsState) : IntegrityRun :=
  match dbVideos with
  | [] => { state := st, diags := [], err := none }
  | vid :: rest =>
      let s := integrityStep aws cached vid st
      match s.2.2 with
      | some e => { state := s.1, diags := s.2.1, err := some e }
      | none =>
          let r := integrityCheck aws cached rest s.1
          { state := r.state, diags := s.2.1 ++ r.diags, err := r.err }

/-! Helper lemmas -/

theorem blockSize_pos : 0 < blockSize := by norm_num [blockSize]

theorem readBlocksFuel_flatten :
    ∀ (fuel : Nat) (l : List Nat), l.length ≤ fuel → (readBlocksFuel fuel l).flatten = l := by
  intro fuel
  induction fuel with
  | zero =>
      intro l hl
      have : l = [] := List.eq_nil_of_length_eq_zero (Nat.le_zero.mp hl)
      subst this
      rfl
  | succ fuel ih =>
      intro l hl
      match l with
      | [] => rfl
      | x :: xs =>
          rw [readBlocksFuel]
          simp only [List.flatten_cons]
          have hbs := blockSize_pos
          rw [ih ((x :: xs).drop blockSize)
            (by simp only [List.length_drop, List.length_cons] at hl ⊢; omega)]
          exact List.take_append_drop _ _

theorem readBlocks_flatten (l : List Nat) : (readBlocks l).flatten = l :=
  readBlocksFuel_flatten l.length l (Nat.le_refl _)

theorem readBlocksFuel_block_len :
    ∀ (fuel : Nat) (l : List Nat), ∀ b ∈ readBlocksFuel fuel l,
      0 < b.length ∧ b.length ≤ blockSize := by
  intro fuel
  induction fuel with
  | zero =>
      intro l b hb
      simp [readBlocksFuel] at hb
  | succ fuel ih =>
      intro l b hb
      match l with
      | [] => simp [readBlocksFuel] at hb
      | x :: xs =>
          rw [readBlocksFuel] at hb
          rcases List.mem_cons.mp hb with hb | hb
          · subst hb
            rw [List.length_take]
            exact ⟨lt_min_iff.mpr ⟨blockSize_pos, by simp⟩, min_le_left _ _⟩
          · exact ih _ b hb

theorem readBlocks_block_len (l : List Nat) :
    ∀ b ∈ readBlocks l, 0 < b.length ∧ b.length ≤ blockSize :=
  readBlocksFuel_block_len l.length l

theorem pySliceNeg_append (p id ext : List Char) (hid : id.length = 11)
    (hext : ext.length = 4) : pySliceNeg (p ++ (id ++ ext)) 15 4 = id := by
  unfold pySliceNeg
  have hlen : (p ++ (id ++ ext)).length = p.length + 15 := by
    simp [List.length_append, hid, hext]
  rw [hlen]
  have h1 : p.length + 15 - 15 = p.length := by omega
  have h2 : p.length + 15 - 4 - p.length = 11 := by omega
  rw [h1, h2, List.drop_left, ← hid, List.take_left]

theorem append_tmp_ne (s : String) : ¬(s ++ ".tmp" = s) := by
  intro h
  have hlen := congrArg String.length h
  rw [String.length_append] at hlen
  have h4 : ".tmp".length = 4 := rfl
  rw [h4] at hlen
  omega

/-! Claim theorems -/

/-- C10: for every valid 11-character video id and any configured key prefix
string, taking characters [-15:-4] of the remote key prefix ++ id ++ ".mkv"
(or ".jpg") recovers exactly the id, so the reconciler's listing parse maps
every listed object back to the id whose remote key produced it. -/
theorem aws_key_roundtrip (pfx vid : String) (h : validVideoID vid = true) :
    parseAwsKey (awsFilename pfx vid) = vid ∧
    parseAwsKey (awsThumbnailFilename pfx vid) = vid := by
  have hlen : vid.toList.length = 11 := by
    simp only [validVideoID, Bool.and_eq_true, beq_iff_eq] at h
    exact h.1
  constructor
  · show String.mk (pySliceNeg (pfx ++ vid ++ ".mkv").toList 15 4) = vid
    rw [show (pfx ++ vid ++ ".mkv").toList
          = pfx.toList ++ (vid.toList ++ ".mkv".toList) by simp [String.toList]]
    rw [pySliceNeg_append pfx.toList vid.toList ".mkv".toList hlen (by rfl)]
    rfl
  · show String.mk (pySliceNeg (pfx ++ vid ++ ".jpg").toList 15 4) = vid
    rw [show (pfx ++ vid ++ ".jpg").toList
          = pfx.toList ++ (vid.toList ++ ".jpg".toList) by simp [String.toList]]
    rw [pySliceNeg_append pfx.toList vid.toList ".jpg".toList hlen (by rfl)]
    rfl

/-- Witness for C10 at a concrete prefix and id. -/
theorem aws_key_roundtrip_witness :
    validVideoID "dQw4w9WgXcQ" = true ∧
    parseAwsKey (awsFilename "arch/" "dQw4w9WgXcQ") = "dQw4w9WgXcQ" ∧
    parseAwsKey (awsThumbnailFilename "arch/" "dQw4w9WgXcQ") = "dQw4w9WgXcQ" :=
  ⟨by decide,
   (aws_key_roundtrip "arch/" "dQw4w9WgXcQ" (by decide)).1,
   (aws_key_roundtrip "arch/" "dQw4w9WgXcQ" (by decide)).2⟩

/-- C4: LocalFilesystem.write_video streams the source in fixed 8 MiB blocks
into the destination path plus ".tmp"; when the streamed size differs from the
pre-read stat size the call fails, commits nothing at the final sharded path
and leaves the temp file in place; when the sizes match, the temp file is
renamed onto the final sharded path as the sole commit step. -/
theorem local_write_video_spec (path vid : String) (statSize : Nat) (src : List Nat)
    (fs : Fs) :
    ((readBlocks src).flatten = src
      ∧ ∀ b ∈ readBlocks src, 0 < b.length ∧ b.length ≤ blockSize)
    ∧ (src.length ≠ statSize →
        (localWriteVideo path vid statSize src fs).ok = false
        ∧ (localWriteVideo path vid statSize src fs).fs (filename path vid)
            = fs (filename path vid)
        ∧ (localWriteVideo path vid statSize src fs).fs (filename path vid ++ ".tmp")
            = some src)
    ∧ (src.length = statSize →
        (localWriteVideo path vid statSize src fs).ok = true
        ∧ (localWriteVideo path vid statSize src fs).fs (filename path vid) = some src
        ∧ (localWriteVideo path vid statSize src fs).fs (filename path vid ++ ".tmp")
            = none) := by
  have hj : (readBlocks src).flatten = src := readBlocks_flatten src
  have hne : ¬(filename path vid = filename path vid ++ ".tmp") :=
    fun h => append_tmp_ne (filename path vid) h.symm
  refine ⟨⟨hj, readBlocks_block_len src⟩, ?_, ?_⟩
  · intro h
    simp only [localWriteVideo, hj]
    rw [if_pos h]
    refine ⟨rfl, ?_, ?_⟩
    · simp [fsSet, hne]
    · simp [fsSet]
  · intro h
    simp only [localWriteVideo, hj]
    rw [if_neg (fun hc => hc h)]
    refine ⟨rfl, ?_, ?_⟩
    · simp [fsRename, fsSet, hne]
    · simp [fsRename, fsSet]

/-- Witness for C4 at a concrete source, in both the mismatch and the match
case. -/
theorem local_write_video_spec_witness :
    (([1, 2, 3] : List Nat).length ≠ 4
      ∧ (localWriteVideo "r" "aaaaaaaaaaa" 4 [1, 2, 3] (fun _ => none)).ok = false)
    ∧ (([1, 2, 3] : List Nat).length = 3
      ∧ (localWriteVideo "r" "aaaaaaaaaaa" 3 [1, 2, 3] (fun _ => none)).ok = true
      ∧ (localWriteVideo "r" "aaaaaaaaaaa" 3 [1, 2, 3] (fun _ => none)).fs
          (filename "r" "aaaaaaaaaaa") = some [1, 2, 3]) :=
  ⟨⟨by decide,
    ((local_write_video_spec "r" "aaaaaaaaaaa" 4 [1, 2, 3] (fun _ => none)).2.1
      (by decide)).1⟩,
   ⟨by decide,
    ((local_write_video_spec "r" "aaaaaaaaaaa" 3 [1, 2, 3] (fun _ => none)).2.2
      (by decide)).1,
    ((local_write_video_spec "r" "aaaaaaaaaaa" 3 [1, 2, 3] (fun _ => none)).2.2
      (by decide)).2.1⟩⟩

/-- C1 counterexample: at a concrete id, AWSFilesystem.write_video's call
trace puts bytes at the final sharded cache path through a direct copy, so
the claimed temp-file-write-plus-atomic-rename discipline does not hold. -/
theorem aws_write_video_not_atomic_cex :
    atomicCommitOnly (awsWriteVideoTrace "cache" "arch/" "dQw4w9WgXcQ" "/tmp/src.mkv")
      (filename "cache" "dQw4w9WgXcQ") = false := by decide

/-- C1 (amended): AWSFilesystem.write_video lands the local cache copy by a
direct shutil.copy onto the final sharded path after the S3 upload, never
through a temp-file write plus rename, so a reader can observe a
partially-written video at the final local path; the atomic discipline does
hold for LocalFilesystem.write_video's trace on the same final path. -/
theorem aws_write_video_direct_copy (path pfx vid src : String) :
    awsWriteVideoTrace path pfx vid src
      = [FsOp.statFile src, FsOp.s3Upload src (awsFilename pfx vid),
         FsOp.makeDirs (foldername path vid), FsOp.copyFile src (filename path vid)]
    ∧ atomicCommitOnly (awsWriteVideoTrace path pfx vid src) (filename path vid) = false
    ∧ atomicCommitOnly (localWriteVideoTrace path vid src) (filename path vid) = true := by
  have hne := append_tmp_ne (filename path vid)
  refine ⟨rfl, ?_, ?_⟩
  · simp [atomicCommitOnly, awsWriteVideoTrace, writesTo]
  · simp [atomicCommitOnly, localWriteVideoTrace, writesTo, hne]

/-- C2 (code bug): with KnownSet = [C, D], C pinned, an empty remote listing
and empty stores, the run prints the missing-asset diagnostics for C and then
aborts with the KeyError raised at aws_videos[C], so D is never processed —
the code does not accumulate-and-continue past this single-id anomaly. -/
theorem integrity_pinned_missing_aborts :
    (integrityCheck (fun _ => none) (fun v => v == "ccccccccccc")
        ["ccccccccccc", "ddddddddddd"]
        ⟨fun _ => none, fun _ => none, fun _ => none, fun _ => none⟩).err
      = some AbortError.keyError
    ∧ (integrityCheck (fun _ => none) (fun v => v == "ccccccccccc")
        ["ccccccccccc", "ddddddddddd"]
        ⟨fun _ => none, fun _ => none, fun _ => none, fun _ => none⟩).diags
      = [Diag.missingVideo "ccccccccccc", Diag.missingThumbnail "ccccccccccc",
         Diag.cachingVideo "ccccccccccc"] := by decide

/-- C3 counterexample: with KnownSet = [A, B], PinSet = {A}, a remote listing
and store containing only B, and an empty local cache, the pass does not end
with A cached and no anomalies: it logs the missing-asset diagnostic for A and
aborts with a KeyError while trying to cache A, before B is even examined. -/
theorem reconciler_convergence_cex :
    (integrityCheck
        (fun v => if v == "bbbbbbbbbbb" then some (some 200, some 20) else none)
        (fun v => v == "aaaaaaaaaaa")
        ["aaaaaaaaaaa", "bbbbbbbbbbb"]
        ⟨fun _ => none, fun _ => none,
         fun v => if v == "bbbbbbbbbbb" then some 200 else none,
         fun v => if v == "bbbbbbbbbbb" then some 20 else none⟩).err
      = some AbortError.keyError
    ∧ (integrityCheck
        (fun v => if v == "bbbbbbbbbbb" then some (some 200, some 20) else none)
        (fun v => v == "aaaaaaaaaaa")
        ["aaaaaaaaaaa", "bbbbbbbbbbb"]
        ⟨fun _ => none, fun _ => none,
         fun v => if v == "bbbbbbbbbbb" then some 200 else none,
         fun v => if v == "bbbbbbbbbbb" then some 20 else none⟩).state.localVideo
        "aaaaaaaaaaa" = none
    ∧ Diag.missingVideo "aaaaaaaaaaa" ∈ (integrityCheck
        (fun v => if v == "bbbbbbbbbbb" then some (some 200, some 20) else none)
        (fun v => v == "aaaaaaaaaaa")
        ["aaaaaaaaaaa", "bbbbbbbbbbb"]
        ⟨fun _ => none, fun _ => none,
         fun v => if v == "bbbbbbbbbbb" then some 200 else none,
         fun v => if v == "bbbbbbbbbbb" then some 20 else none⟩).diags := by decide

/-- C3 (amended): with KnownSet = [A, B], PinSet = {A}, a remote listing and
store containing both A and B (video and thumbnail objects), and an empty
local cache, one pass downloads A into the cache, leaves B remote-only with
no transfer and no eviction, prints only the caching notice — no anomaly
diagnostic for either id — and does not abort. -/
theorem reconciler_convergence_amended (A B : String) (hAB : A ≠ B)
    (vsa tsa vsb tsb : Nat) (aws : AwsMap) (cached : String → Bool) (st : AwsState)
    (hawsA : aws A = some (some vsa, some tsa))
    (hawsB : aws B = some (some vsb, some tsb))
    (hcA : cached A = true) (hcB : cached B = false)
    (hlv : ∀ w, st.localVideo w = none) (hlt : ∀ w, st.localThumb w = none)
    (hrA : st.remoteVideo A = some vsa) :
    (integrityCheck aws cached [A, B] st).err = none
    ∧ (integrityCheck aws cached [A, B] st).diags = [Diag.cachingVideo A]
    ∧ (integrityCheck aws cached [A, B] st).state.localVideo A = some vsa
    ∧ (integrityCheck aws cached [A, B] st).state.localVideo B = none
    ∧ (integrityCheck aws cached [A, B] st).state.remoteVideo = st.remoteVideo
    ∧ (integrityCheck aws cached [A, B] st).state.remoteThumb = st.remoteThumb
    ∧ (integrityCheck aws cached [A, B] st).state.localThumb = st.localThumb := by
  have hBA : ¬(B = A) := fun h => hAB h.symm
  simp [integrityCheck, integrityStep, videoLeg, thumbLeg, pinLeg, setLocalVideo,
    hawsA, hawsB, hcA, hcB, hlv, hlt, hrA, hBA]

/-- Witness for C3's amended theorem at concrete ids and sizes. -/
theorem reconciler_convergence_amended_witness :
    ("aaaaaaaaaaa" : String) ≠ "bbbbbbbbbbb"
    ∧ (integrityCheck
        (fun v => if v == "aaaaaaaaaaa" then some (some 100, some 10)
          else if v == "bbbbbbbbbbb" then some (some 200, some 20) else none)
        (fun v => v == "aaaaaaaaaaa")
        ["aaaaaaaaaaa", "bbbbbbbbbbb"]
        ⟨fun _ => none, fun _ => none,
         fun v => if v == "aaaaaaaaaaa" then some 100
           else if v == "bbbbbbbbbbb" then some 200 else none,
         fun v => if v == "aaaaaaaaaaa" then some 10
           else if v == "bbbbbbbbbbb" then some 20 else none⟩).err = none
    ∧ (integrityCheck
        (fun v => if v == "aaaaaaaaaaa" then some (some 100, some 10)
          else if v == "bbbbbbbbbbb" then some (some 200, some 20) else none)
        (fun v => v == "aaaaaaaaaaa")
        ["aaaaaaaaaaa", "bbbbbbbbbbb"]
        ⟨fun _ => none, fun _ => none,
         fun v => if v == "aaaaaaaaaaa" then some 100
           else if v == "bbbbbbbbbbb" then some 200 else none,
         fun v => if v == "aaaaaaaaaaa" then some 10
           else if v == "bbbbbbbbbbb" then some 20 else none⟩).diags
      = [Diag.cachingVideo "aaaaaaaaaaa"] :=
  ⟨by decide,
   (reconciler_convergence_amended "aaaaaaaaaaa" "bbbbbbbbbbb" (by decide)
      100 10 200 20 _ _ _ (by decide) (by decide) (by decide) (by decide)
      (fun w => rfl) (fun w => rfl) (by decide)).1,
   (reconciler_convergence_amended "aaaaaaaaaaa" "bbbbbbbbbbb" (by decide)
      100 10 200 20 _ _ _ (by decide) (by decide) (by decide) (by decide)
      (fun w => rfl) (fun w => rfl) (by decide)).2.1⟩

/-- C5: in the reconciliation loop, a locally cached video is re-uploaded
(remote size becomes the local size) exactly when the listing has no video
size for the id or the listed size differs from the local size, and left
alone when they agree; a video neither cached nor listed yields the
missing-asset diagnostic with no state change at all; the thumbnail leg
applies the same logic on the thumbnail entries; and the two legs are
independent — the video leg never touches thumbnail state, the thumbnail leg
never touches video state, and neither deletes a local copy. -/
theorem integrity_legs_spec (aws : AwsMap) (vid : String) (st : AwsState) :
    (∀ lsz, st.localVideo vid = some lsz →
      ((aws vid).bind Prod.fst ≠ some lsz →
        videoLeg aws vid st
          = (setRemoteVideo st vid (some lsz), [Diag.uploadingVideo vid]))
      ∧ ((aws vid).bind Prod.fst = some lsz → videoLeg aws vid st = (st, [])))
    ∧ (st.localVideo vid = none → (aws vid).bind Prod.fst = none →
        videoLeg aws vid st = (st, [Diag.missingVideo vid]))
    ∧ (∀ lsz, st.localThumb vid = some lsz →
      ((aws vid).bind Prod.snd ≠ some lsz →
        thumbLeg aws vid st
          = (setRemoteThumb st vid (some lsz), [Diag.uploadingThumbnail vid]))
      ∧ ((aws vid).bind Prod.snd = some lsz → thumbLeg aws vid st = (st, [])))
    ∧ (st.localThumb vid = none → (aws vid).bind Prod.snd = none →
        thumbLeg aws vid st = (st, [Diag.missingThumbnail vid]))
    ∧ ((videoLeg aws vid st).1.localVideo = st.localVideo
      ∧ (videoLeg aws vid st).1.localThumb = st.localThumb
      ∧ (videoLeg aws vid st).1.remoteThumb = st.remoteThumb
      ∧ (thumbLeg aws vid st).1.localVideo = st.localVideo
      ∧ (thumbLeg aws vid st).1.localThumb = st.localThumb
      ∧ (thumbLeg aws vid st).1.remoteVideo = st.remoteVideo) := by
  refine ⟨?_, ?_, ?_, ?_, ?_⟩
  · intro lsz hl
    constructor
    · intro hcond
      cases haws : aws vid with
      | none => simp [videoLeg, hl, haws]
      | some sizes =>
          rw [haws] at hcond
          simp only [Option.some_bind] at hcond
          simp [videoLeg, hl, haws, hcond]
    · intro hcond
      cases haws : aws vid with
      | none => rw [haws] at hcond; simp at hcond
      | some sizes =>
          rw [haws] at hcond
          simp only [Option.some_bind] at hcond
          simp [videoLeg, hl, haws, hcond]
  · intro hl hcond
    cases haws : aws vid with
    | none => simp [videoLeg, hl, haws]
    | some sizes =>
        rw [haws] at hcond
        simp only [Option.some_bind] at hcond
        simp [videoLeg, hl, haws, hcond]
  · intro lsz hl
    constructor
    · intro hcond
      cases haws : aws vid with
      | none => simp [thumbLeg, hl, haws]
      | some sizes =>
          rw [haws] at hcond
          simp only [Option.some_bind] at hcond
          simp [thumbLeg, hl, haws, hcond]
    · intro hcond
      cases haws : aws vid with
      | none => rw [haws] at hcond; simp at hcond
      | some sizes =>
          rw [haws] at hcond
          simp only [Option.some_bind] at hcond
          simp [thumbLeg, hl, haws, hcond]
  · intro hl hcond
    cases haws : aws vid with
    | none => simp [thumbLeg, hl, haws]
    | some sizes =>
        rw [haws] at hcond
        simp only [Option.some_bind] at hcond
        simp [thumbLeg, hl, haws, hcond]
  · refine ⟨?_, ?_, ?_, ?_, ?_, ?_⟩ <;>
      · cases hl : st.localVideo vid <;> cases ht : st.localThumb vid <;>
          cases haws : aws vid <;>
          simp [videoLeg, thumbLeg, setRemoteVideo, setRemoteThumb, hl, ht, haws] <;>
          split <;> rfl

/-- Witness for C5 at a concrete listing and state: the cached video whose
size differs from the listing is re-uploaded; the absent video produces the
missing diagnostic. -/
theorem integrity_legs_spec_witness :
    ((⟨fun v => if v == "aaaaaaaaaaa" then some 6 else none, fun _ => none,
       fun _ => none, fun _ => none⟩ : AwsState).localVideo "aaaaaaaaaaa" = some 6)
    ∧ (((fun v => if v == "aaaaaaaaaaa" then some (some 5, some 7) else none : AwsMap)
        "aaaaaaaaaaa").bind Prod.fst ≠ some 6)
    ∧ videoLeg (fun v => if v == "aaaaaaaaaaa" then some (some 5, some 7) else none)
        "aaaaaaaaaaa"
        ⟨fun v => if v == "aaaaaaaaaaa" then some 6 else none, fun _ => none,
         fun _ => none, fun _ => none⟩
      = (setRemoteVideo
          ⟨fun v => if v == "aaaaaaaaaaa" then some 6 else none, fun _ => none,
           fun _ => none, fun _ => none⟩ "aaaaaaaaaaa" (some 6),
         [Diag.uploadingVideo "aaaaaaaaaaa"])
    ∧ videoLeg (fun v => if v == "aaaaaaaaaaa" then some (some 5, some 7) else none)
        "bbbbbbbbbbb"
        ⟨fun v => if v == "aaaaaaaaaaa" then some 6 else none, fun _ => none,
         fun _ => none, fun _ => none⟩
      = (⟨fun v => if v == "aaaaaaaaaaa" then some 6 else none, fun _ => none,
          fun _ => none, fun _ => none⟩,
         [Diag.missingVideo "bbbbbbbbbbb"]) :=
  ⟨by decide, by decide,
   ((integrity_legs_spec
      (fun v => if v == "aaaaaaaaaaa" then some (some 5, some 7) else none)
      "aaaaaaaaaaa"
      ⟨fun v => if v == "aaaaaaaaaaa" then some 6 else none, fun _ => none,
       fun _ => none, fun _ => none⟩).1 6 (by decide)).1 (by decide),
   (integrity_legs_spec
      (fun v => if v == "aaaaaaaaaaa" then some (some 5, some 7) else none)
      "bbbbbbbbbbb"
      ⟨fun v => if v == "aaaaaaaaaaa" then some 6 else none, fun _ => none,
       fun _ => none, fun _ => none⟩).2.1 (by decide) (by decide)⟩

/-- C6: an id outside the pin set whose video is locally cached is evicted by
the pin leg — its local video entry is deleted while other ids' local videos,
all local thumbnails and both remote stores are untouched; and on a
size-consistent singleton KnownSet one whole reconciliation pass performs
exactly this eviction and nothing else. -/
theorem eviction_spec (aws : AwsMap) (cached : String → Bool) (vid : String)
    (st : AwsState) (vsz : Nat)
    (hc : cached vid = false) (hl : st.localVideo vid = some vsz) :
    (pinLeg aws cached vid st
        = (setLocalVideo st vid none, [Diag.evictingVideo vid], none)
      ∧ (setLocalVideo st vid none).localVideo vid = none
      ∧ (∀ w, w ≠ vid → (setLocalVideo st vid none).localVideo w = st.localVideo w)
      ∧ (setLocalVideo st vid none).localThumb = st.localThumb
      ∧ (setLocalVideo st vid none).remoteVideo = st.remoteVideo
      ∧ (setLocalVideo st vid none).remoteThumb = st.remoteThumb)
    ∧ (∀ tsz, st.localThumb vid = some tsz → aws vid = some (some vsz, some tsz) →
        (integrityCheck aws cached [vid] st).err = none
        ∧ (integrityCheck aws cached [vid] st).diags = [Diag.evictingVideo vid]
        ∧ (integrityCheck aws cached [vid] st).state.localVideo vid = none
        ∧ (∀ w, w ≠ vid →
            (integrityCheck aws cached [vid] st).state.localVideo w = st.localVideo w)
        ∧ (integrityCheck aws cached [vid] st).state.localThumb = st.localThumb
        ∧ (integrityCheck aws cached [vid] st).state.remoteVideo = st.remoteVideo
        ∧ (integrityCheck aws cached [vid] st).state.remoteThumb = st.remoteThumb) := by
  constructor
  · refine ⟨by simp [pinLeg, hc, hl], by simp [setLocalVideo], ?_,
      rfl, rfl, rfl⟩
    intro w hw
    simp [setLocalVideo, hw]
  · intro tsz ht haws
    have hstep : integrityCheck aws cached [vid] st
        = { state := setLocalVideo st vid none,
            diags := [Diag.evictingVideo vid], err := none } := by
      simp [integrityCheck, integrityStep, videoLeg, thumbLeg, pinLeg,
        hc, hl, ht, haws]
    rw [hstep]
    refine ⟨rfl, rfl, by simp [setLocalVideo], ?_, rfl, rfl, rfl⟩
    intro w hw
    simp [setLocalVideo, hw]

/-- Witness for C6 at a concrete pinned-out cached id. -/
theorem eviction_spec_witness :
    ((fun v => v == "ppppppppppp" : String → Bool) "aaaaaaaaaaa" = false)
    ∧ ((⟨fun v => if v == "aaaaaaaaaaa" then some 5 else none,
         fun v => if v == "aaaaaaaaaaa" then some 7 else none,
         fun v => if v == "aaaaaaaaaaa" then some 5 else none,
         fun v => if v == "aaaaaaaaaaa" then some 7 else none⟩ : AwsState).localVideo
        "aaaaaaaaaaa" = some 5)
    ∧ (integrityCheck (fun v => if v == "aaaaaaaaaaa" then some (some 5, some 7) else none)
        (fun v => v == "ppppppppppp") ["aaaaaaaaaaa"]
        ⟨fun v => if v == "aaaaaaaaaaa" then some 5 else none,
         fun v => if v == "aaaaaaaaaaa" then some 7 else none,
         fun v => if v == "aaaaaaaaaaa" then some 5 else none,
         fun v => if v == "aaaaaaaaaaa" then some 7 else none⟩).diags
      = [Diag.evictingVideo "aaaaaaaaaaa"] :=
  ⟨by decide, by decide,
   ((eviction_spec (fun v => if v == "aaaaaaaaaaa" then some (some 5, some 7) else none)
      (fun v => v == "ppppppppppp") "aaaaaaaaaaa"
      ⟨fun v => if v == "aaaaaaaaaaa" then some 5 else none,
       fun v => if v == "aaaaaaaaaaa" then some 7 else none,
       fun v => if v == "aaaaaaaaaaa" then some 5 else none,
       fun v => if v == "aaaaaaaaaaa" then some 7 else none⟩ 5
      (by decide) (by decide)).2 7 (by decide) (by decide)).2.1⟩

/-- C7: AWSFilesystem.video_status answers LOCAL whenever the sharded cache
file exists, for every possible remote head response (the remote store is not
consulted, so LOCAL wins even when a remote copy exists too); on a cache miss
it answers REMOTE when the probe finds the object and OFFLINE when the probe
reports code 404. -/
theorem video_status_spec (st : AwsState) (vid : String) :
    ((st.localVideo vid).isSome = true →
      ∀ head, awsVideoStatus st vid head = Except.ok StorageClass.LOCAL)
    ∧ (st.localVideo vid = none →
      (∀ sz, awsVideoStatus st vid (HeadResponse.found sz)
          = Except.ok StorageClass.REMOTE)
      ∧ awsVideoStatus st vid (HeadResponse.clientError "404")
          = Except.ok StorageClass.OFFLINE) := by
  constructor
  · intro h head
    simp [awsVideoStatus, h]
  · intro h
    constructor
    · intro sz
      simp [awsVideoStatus, awsVideoExists, h]
    · simp [awsVideoStatus, awsVideoExists, h]

/-- Witness for C7: a cached id is LOCAL even when the remote object exists;
an uncached id is REMOTE when found and OFFLINE on a 404. -/
theorem video_status_spec_witness :
    (((⟨fun _ => some 5, fun _ => none, fun _ => none, fun _ => none⟩ :
        AwsState).localVideo "aaaaaaaaaaa").isSome = true)
    ∧ awsVideoStatus ⟨fun _ => some 5, fun _ => none, fun _ => none, fun _ => none⟩
        "aaaaaaaaaaa" (HeadResponse.found 9) = Except.ok StorageClass.LOCAL
    ∧ ((⟨fun _ => none, fun _ => none, fun _ => none, fun _ => none⟩ :
        AwsState).localVideo "aaaaaaaaaaa" = none)
    ∧ awsVideoStatus ⟨fun _ => none, fun _ => none, fun _ => none, fun _ => none⟩
        "aaaaaaaaaaa" (HeadResponse.found 9) = Except.ok StorageClass.REMOTE
    ∧ awsVideoStatus ⟨fun _ => none, fun _ => none, fun _ => none, fun _ => none⟩
        "aaaaaaaaaaa" (HeadResponse.clientError "404")
        = Except.ok StorageClass.OFFLINE :=
  ⟨by decide,
   (video_status_spec ⟨fun _ => some 5, fun _ => none, fun _ => none, fun _ => none⟩
      "aaaaaaaaaaa").1 (by decide) (HeadResponse.found 9),
   by decide,
   ((video_status_spec ⟨fun _ => none, fun _ => none, fun _ => none, fun _ => none⟩
      "aaaaaaaaaaa").2 (by decide)).1 9,
   ((video_status_spec ⟨fun _ => none, fun _ => none, fun _ => none, fun _ => none⟩
      "aaaaaaaaaaa").2 (by decide)).2⟩

/-- C8: the video and thumbnail existence probes report absence exactly on a
ClientError with code '404' (no exception), re-raise every other ClientError
code, and report presence on a successful head response. -/
theorem probe_error_spec (code : String) :
    (awsVideoExists (HeadResponse.clientError "404") = Except.ok false
      ∧ awsThumbnailExists (HeadResponse.clientError "404") = Except.ok false)
    ∧ (code ≠ "404" →
        awsVideoExists (HeadResponse.clientError code) = Except.error ()
        ∧ awsThumbnailExists (HeadResponse.clientError code) = Except.error ())
    ∧ (∀ sz, awsVideoExists (HeadResponse.found sz) = Except.ok true
        ∧ awsThumbnailExists (HeadResponse.found sz) = Except.ok true) := by
  refine ⟨⟨rfl, rfl⟩, ?_, fun sz => ⟨rfl, rfl⟩⟩
  intro h
  constructor <;> simp [awsVideoExists, awsThumbnailExists, h]

/-- Witness for C8 at the concrete non-404 code '500'. -/
theorem probe_error_spec_witness :
    ("500" : String) ≠ "404"
    ∧ awsVideoExists (HeadResponse.clientError "500") = Except.error ()
    ∧ awsThumbnailExists (HeadResponse.clientError "500") = Except.error ()
    ∧ awsVideoExists (HeadResponse.clientError "404") = Except.ok false :=
  ⟨by decide,
   ((probe_error_spec "500").2.1 (by decide)).1,
   ((probe_error_spec "500").2.1 (by decide)).2,
   (probe_error_spec "500").1.1⟩

/-- C9: on a cache miss, get_video_url with force_download = false returns
the presigned GET URL for the configured bucket and video key with the fixed
86400-second expiry (AWS_URL_KEEPALIVE) and changes no state; with
force_download = true and the object present remotely it downloads the object
into the cache and returns the local sharded path, after which video_status
answers LOCAL for every remote head response. -/
theorem get_video_url_spec (path bucket pfx : String) (st : AwsState) (vid : String)
    (sz : Nat) (hmiss : st.localVideo vid = none) :
    (awsGetVideoUrl path bucket pfx st vid false
        = Except.ok (UrlResult.presignedUrl bucket (awsFilename pfx vid) 86400, st))
    ∧ AWS_URL_KEEPALIVE = 86400
    ∧ (st.remoteVideo vid = some sz →
        awsGetVideoUrl path bucket pfx st vid true
          = Except.ok (UrlResult.localPath (filename path vid),
              setLocalVideo st vid (some sz))
        ∧ (setLocalVideo st vid (some sz)).localVideo vid = some sz
        ∧ ∀ head, awsVideoStatus (setLocalVideo st vid (some sz)) vid head
            = Except.ok StorageClass.LOCAL) := by
  refine ⟨?_, rfl, ?_⟩
  · simp [awsGetVideoUrl, hmiss, AWS_URL_KEEPALIVE]
  · intro hr
    refine ⟨?_, by simp [setLocalVideo], ?_⟩
    · simp [awsGetVideoUrl, hmiss, hr]
    · intro head
      simp [awsVideoStatus, setLocalVideo]

/-- Witness for C9 at a concrete remote-only asset. -/
theorem get_video_url_spec_witness :
    ((⟨fun _ => none, fun _ => none, fun _ => some 9, fun _ => none⟩ :
        AwsState).localVideo "dQw4w9WgXcQ" = none)
    ∧ awsGetVideoUrl "cache" "bkt" "arch/"
        ⟨fun _ => none, fun _ => none, fun _ => some 9, fun _ => none⟩
        "dQw4w9WgXcQ" false
      = Except.ok (UrlResult.presignedUrl "bkt" (awsFilename "arch/" "dQw4w9WgXcQ") 86400,
          ⟨fun _ => none, fun _ => none, fun _ => some 9, fun _ => none⟩)
    ∧ awsGetVideoUrl "cache" "bkt" "arch/"
        ⟨fun _ => none, fun _ => none, fun _ => some 9, fun _ => none⟩
        "dQw4w9WgXcQ" true
      = Except.ok (UrlResult.localPath (filename "cache" "dQw4w9WgXcQ"),
          setLocalVideo ⟨fun _ => none, fun _ => none, fun _ => some 9, fun _ => none⟩
            "dQw4w9WgXcQ" (some 9))
    ∧ awsVideoStatus
        (setLocalVideo ⟨fun _ => none, fun _ => none, fun _ => some 9, fun _ => none⟩
          "dQw4w9WgXcQ" (some 9)) "dQw4w9WgXcQ" (HeadResponse.found 9)
      = Except.ok StorageClass.LOCAL :=
  ⟨by decide,
   (get_video_url_spec "cache" "bkt" "arch/"
      ⟨fun _ => none, fun _ => none, fun _ => some 9, fun _ => none⟩
      "dQw4w9WgXcQ" 9 (by decide)).1,
   ((get_video_url_spec "cache" "bkt" "arch/"
      ⟨fun _ => none, fun _ => none, fun _ => some 9, fun _ => none⟩
      "dQw4w9WgXcQ" 9 (by decide)).2.2 (by decide)).1,
   (((get_video_url_spec "cache" "bkt" "arch/"
      ⟨fun _ => none, fun _ => none, fun _ => some 9, fun _ => none⟩
      "dQw4w9WgXcQ" 9 (by decide)).2.2 (by decide)).2.2 (HeadResponse.found 9))⟩

end MediaFs
